import Mathlib

/-!
Verification of the BlueBrainNexus store (kgforge/specializations/stores/bluebrain_nexus.py)
against its natural-language specification.

The Python source is embedded shallowly: pure helpers become Lean functions, the
HTTP layer becomes an oracle `String → HttpResponse`, in-place mutation of a
resource or of the caller's filter list becomes explicit state passing, and
`raise` becomes `Except`.  Components of the repository that are not part of the
sources (the `Service` transport class, the JSON-LD `Context` class, the query
builders) are modelled from the spec where a claim needs them; each such
definition is marked `Modelled from the spec:` in its doc comment.
-/

/-! ## Basic character classes and string helpers (urllib / re semantics) -/

/-- Python regex `\w` on the ASCII inputs handled here: letters, digits, underscore. -/
def wordChar (c : Char) : Bool :=
  c.isAlphanum || c = '_'

/-- Characters Python `urllib.parse.quote` never encodes (the always-safe set). -/
def quoteSafeChar (c : Char) : Bool :=
  c.isAlphanum || c = '_' || c = '.' || c = '-' || c = '~'

/-- Uppercase hexadecimal digit for a value below 16, as `urllib.parse.quote` emits. -/
def hexDigit (n : Nat) : Char :=
  if n < 10 then Char.ofNat (48 + n) else Char.ofNat (55 + n)

/-- Value of a hexadecimal digit character, if it is one (`unquote` accepts both cases). -/
def hexVal (c : Char) : Option Nat :=
  if 48 ≤ c.toNat ∧ c.toNat ≤ 57 then some (c.toNat - 48)
  else if 65 ≤ c.toNat ∧ c.toNat ≤ 70 then some (c.toNat - 55)
  else if 97 ≤ c.toNat ∧ c.toNat ≤ 102 then some (c.toNat - 87)
  else none

/-- `urllib.parse.quote_plus` restricted to the ASCII strings this code handles:
every character outside the always-safe set is percent-encoded with uppercase
hex, and a space becomes a plus sign. -/
def quotePlusList : List Char → List Char
  | [] => []
  | c :: rest =>
    if quoteSafeChar c then c :: quotePlusList rest
    else if c = ' ' then '+' :: quotePlusList rest
    else '%' :: hexDigit (c.toNat / 16) :: hexDigit (c.toNat % 16) :: quotePlusList rest

def quote_plus (s : String) : String :=
  String.mk (quotePlusList s.data)

/-- `urllib.parse.unquote` on ASCII data: decode each `%XX` pair, leave a `%`
not followed by two hex digits untouched; `+` is not special for `unquote`. -/
def unquoteList : List Char → List Char
  | [] => []
  | '%' :: a :: b :: rest =>
    match hexVal a, hexVal b with
    | some x, some y => Char.ofNat (16 * x + y) :: unquoteList rest
    | _, _ => '%' :: unquoteList (a :: b :: rest)
  | c :: rest => c :: unquoteList rest

def unquote (s : String) : String :=
  String.mk (unquoteList s.data)

/-- `unquote_plus`: like `unquote` but a plus sign decodes to a space
(used by `parse_qs` on names and values). -/
def unquotePlusList : List Char → List Char
  | [] => []
  | '+' :: rest => ' ' :: unquotePlusList rest
  | '%' :: a :: b :: rest =>
    match hexVal a, hexVal b with
    | some x, some y => Char.ofNat (16 * x + y) :: unquotePlusList rest
    | _, _ => '%' :: unquotePlusList (a :: b :: rest)
  | c :: rest => c :: unquotePlusList rest

def unquote_plus (s : String) : String :=
  String.mk (unquotePlusList s.data)

/-- Split a character list at the first occurrence of `sep`:
the part before it and, when `sep` occurs, the part after it
(Python `s.split(sep, 1)`). -/
def breakAt (sep : Char) : List Char → List Char × Option (List Char)
  | [] => ([], none)
  | c :: rest =>
    if c = sep then ([], some rest)
    else
      let p := breakAt sep rest
      (c :: p.1, p.2)

/-- Substring occurrence: `sub` occurs somewhere in `l` (Python `sub in s`). -/
def containsSub (sub : List Char) : List Char → Bool
  | [] => sub.isEmpty
  | c :: rest => sub.isPrefixOf (c :: rest) || containsSub sub rest

/-- Python `sub in s` (substring containment). -/
def strContains (s sub : String) : Bool :=
  containsSub sub.data s.data

/-- Python `s.startswith(pre)`. -/
def pyStartsWith (s pre : String) : Bool :=
  pre.data.isPrefixOf s.data

/-- Python `s.split(sep)` for a non-empty separator, on character lists,
with an explicit fuel argument (called with the list's length) so that the
recursion is structural and evaluates inside the kernel. -/
def pySplitAux (sep : List Char) : Nat → List Char → List (List Char)
  | _, [] => [[]]
  | 0, l => [l]
  | fuel + 1, c :: rest =>
    if sep.isPrefixOf (c :: rest) then
      [] :: pySplitAux sep fuel ((c :: rest).drop sep.length)
    else
      match pySplitAux sep fuel rest with
      | [] => [[c]]
      | h :: t => (c :: h) :: t

/-- Python `s.split(sep)` for a non-empty separator. -/
def pySplit (s sep : String) : List String :=
  (pySplitAux sep.data s.data.length s.data).map String.mk

/-- Python `s.replace(old, new)` for a non-empty `old`: replace every
non-overlapping occurrence, left to right (fuel keeps the recursion structural). -/
def pyReplaceAux (pat rep : List Char) : Nat → List Char → List Char
  | _, [] => []
  | 0, l => l
  | fuel + 1, c :: rest =>
    if pat.isPrefixOf (c :: rest) then
      rep ++ pyReplaceAux pat rep fuel ((c :: rest).drop pat.length)
    else
      c :: pyReplaceAux pat rep fuel rest

/-- Python `s.replace(old, new)` for a non-empty `old`. -/
def pyReplace (s pat rep : String) : String :=
  String.mk (pyReplaceAux pat.data rep.data s.data.length s.data)

/-! ## `_create_select_query` (bluebrain_nexus.py lines 1049-1055) -/

/-- Source: module-level helper `_create_select_query(vars_, statements, distinct,
search_in_graph)`: wrap the statements in a `Graph ?g` block when requested,
join the variables with spaces, prefix `DISTINCT` when requested. -/
def _create_select_query (vars_ : List String) (statements : String)
    (distinct : Bool) (search_in_graph : Bool) : String :=
  let where_clauses :=
    if search_in_graph then "\x7b Graph ?g \x7b" ++ statements ++ "\x7d\x7d"
    else "\x7b" ++ statements ++ "\x7d"
  let join_vars_ := String.intercalate " " vars_
  let select_vars := if distinct then "DISTINCT " ++ join_vars_ else join_vars_
  "SELECT " ++ select_vars ++ " WHERE " ++ where_clauses

/-- C7: the concrete value demanded by the spec, together with the general
structural characterization: the output is `SELECT `, then `DISTINCT ` exactly
when `distinct` is true, then the space-joined variables, then ` WHERE ` and the
statements wrapped in a `Graph ?g` block exactly when `search_in_graph` is true. -/
theorem create_select_query_spec :
    (_create_select_query ["?id", "?project"] "?id type <X>" true true =
      "SELECT DISTINCT ?id ?project WHERE \x7b Graph ?g \x7b?id type <X>\x7d\x7d") ∧
    (∀ (vars_ : List String) (statements : String) (distinct search_in_graph : Bool),
      _create_select_query vars_ statements distinct search_in_graph =
        "SELECT " ++ (if distinct then "DISTINCT " else "")
          ++ String.intercalate " " vars_ ++ " WHERE "
          ++ (if search_in_graph then "\x7b Graph ?g \x7b" ++ statements ++ "\x7d\x7d"
              else "\x7b" ++ statements ++ "\x7d")) := by
  constructor
  · rfl
  · intro vars_ statements distinct search_in_graph
    cases distinct <;> cases search_in_graph <;>
      simp [_create_select_query, ← String.append_assoc]

/-! ## `urllib.parse.urlparse` and `parse_qs` (external collaborators of retrieve) -/

/-- Characters allowed in a URL scheme by `urllib.parse` (after the leading letter). -/
def schemeChar (c : Char) : Bool :=
  c.isAlphanum || c = '+' || c = '-' || c = '.'

/-- A character that terminates the netloc component (`/`, `?` or `#`). -/
def netlocEnd (c : Char) : Bool :=
  c = '/' || c = '?' || c = '#'

/-- CPython `urlsplit` scheme extraction: the part before the first colon is the
scheme when it is non-empty, starts with a letter and is made of scheme
characters only; it is lowercased.  Otherwise there is no scheme. -/
def splitScheme (l : List Char) : List Char × List Char :=
  let p := breakAt ':' l
  match p.2 with
  | some rest =>
    if p.1 ≠ [] ∧ (p.1.headD ' ').isAlpha ∧ p.1.all schemeChar then
      (p.1.map Char.toLower, rest)
    else ([], l)
  | none => ([], l)

structure UrlParseResult where
  scheme : String
  netloc : String
  path : String
  query : String
  fragment : String
deriving Repr, DecidableEq

/-- CPython `urllib.parse.urlparse` (for URLs without the legacy `;params`
component, which never occurs here): extract the scheme, then the netloc after
a leading `//` (up to the first `/`, `?` or `#`), then split off the fragment
at the first `#`, then the query at the first `?`. -/
def urlparse (s : String) : UrlParseResult :=
  let sp := splitScheme s.data
  let schemeL := sp.1
  let rest1 := sp.2
  -- CPython: `if url[:2] == '//':` then netloc runs to the first `/`, `?` or `#`
  let nl : List Char × List Char :=
    if rest1.take 2 = ['/', '/'] then
      ((rest1.drop 2).takeWhile (fun c => !netlocEnd c),
        (rest1.drop 2).dropWhile (fun c => !netlocEnd c))
    else ([], rest1)
  let bf := breakAt '#' nl.2
  let fragmentL := bf.2.getD []
  let bq := breakAt '?' bf.1
  let queryL := bq.2.getD []
  { scheme := String.mk schemeL, netloc := String.mk nl.1, path := String.mk bq.1,
    query := String.mk queryL, fragment := String.mk fragmentL }

/-- Values held by the query-parameter dictionary handed to `requests`:
`parse_qs` produces lists of strings, while the `rev`/`tag` version parameter
is written in as a plain integer or string (the Python dict is heterogeneous). -/
inductive PVal where
  | strs (vs : List String)
  | int (n : Int)
  | str (s : String)
deriving Repr, DecidableEq

/-- An insertion-ordered Python dict of request parameters. -/
abbrev ParamDict := List (String × PVal)

/-- Append one more string to a `parse_qs` value list. -/
def pushVal : PVal → String → PVal
  | .strs vs, v => .strs (vs ++ [v])
  | x, _ => x

/-- CPython `parse_qsl` with default arguments: split the query on `&`, keep
only fields with an `=` and a non-empty value, and unquote names and values. -/
def parseQsl (q : String) : List (String × String) :=
  (pySplit q "&").foldr
    (fun field acc =>
      let p := breakAt '=' field.data
      match p.2 with
      | some v =>
        if v.isEmpty then acc
        else (unquote_plus (String.mk p.1), unquote_plus (String.mk v)) :: acc
      | none => acc)
    []

/-- CPython `parse_qs`: group the `parse_qsl` pairs into an insertion-ordered
dict mapping each name to the list of its values. -/
def parseQs (q : String) : ParamDict :=
  (parseQsl q).foldl
    (fun acc kv =>
      if acc.any (fun p => p.1 = kv.1) then
        acc.map (fun p => if p.1 = kv.1 then (p.1, pushVal p.2 kv.2) else p)
      else acc ++ [(kv.1, PVal.strs [kv.2])])
    []

/-- Python `dict.update`: existing keys are overwritten in place, new keys are
appended in order. -/
def dictUpdate (d upd : ParamDict) : ParamDict :=
  upd.foldl
    (fun acc kv =>
      if acc.any (fun p => p.1 = kv.1) then
        acc.map (fun p => if p.1 = kv.1 then (kv.1, kv.2) else p)
      else acc ++ [kv])
    d

/-! ## HTTP responses and the typed error taxonomy (exceptions.py) -/

/-- The slice of a `requests`/`aiohttp` response the embedded code observes:
its status code, its JSON body (kept abstract as a string), and the body's
`_self` field when present. -/
structure HttpResponse where
  status : Nat
  body : String
  selfLink : Option String := none
  atId : String := ""
  atType : String := ""
deriving Repr, DecidableEq

/-- `requests.Response.__bool__` / `.ok`: truthy exactly when the status code
is below 400. -/
def HttpResponse.isOk (r : HttpResponse) : Bool :=
  r.status < 400

/-- The store's typed errors (kgforge/core/commons/exceptions.py), each
carrying the observation that distinguishes it in the claims. -/
inductive StoreError where
  | registrationError (status : Nat)
  | retrievalError (status : Nat)
  | uploadingError (msg : String)
  | updatingError (status : Nat)
  | taggingError (status : Nat)
  | deprecationError (status : Nat)
  | queryingError (status : Nat)
  | valueError (msg : String)
  | notSupportedError (msg : String)
deriving Repr, DecidableEq

/-- `catch_http_error_nexus(response, ErrorType)`: `raise_for_status` raises
for any 4xx/5xx status code, and the raised `HTTPError` is rewrapped in the
operation's typed error. -/
def catch_http_error_nexus (r : HttpResponse) (e : Nat → StoreError) : Except StoreError Unit :=
  if 400 ≤ r.status then .error (e r.status) else .ok ()

/-- The store-level configuration `retrieve` reads: the service endpoint and
the two resource URL bases.  `Service` itself is not among the sources; these
fields are exactly the attributes the store code dereferences. -/
structure ServiceConfig where
  endpoint : String
  url_resources : String
  url_resolver : String
deriving Repr, DecidableEq

/-- An HTTP oracle: the response the backend returns for a GET at a URL with
the given query parameters (`none` when `params=None` was passed). -/
abbrev HttpOracle := String → Option ParamDict → HttpResponse

/-! ## `BlueBrainNexus.retrieve` (bluebrain_nexus.py lines 305-419) -/

/-- The `version` argument of `retrieve`: a revision number or a tag name
(the untyped-`version` branch that raises `RetrievalError("incorrect version")`
is unreachable for these two shapes and is not modelled). -/
inductive RetrieveVersion where
  | rev (n : Int)
  | tag (t : String)
deriving Repr, DecidableEq

/-- The version parameter dict built at lines 319-326. -/
def versionParams : RetrieveVersion → ParamDict
  | .rev n => [("rev", PVal.int n)]
  | .tag t => [("tag", PVal.str t)]

/-- Everything `retrieve` computes before its first HTTP request
(lines 319-356): the version/query parameter merge, the fragment/query
separation of the identifier, and the lookup URLs. -/
structure RetrievePrep where
  query_params : Option ParamDict
  fragment : Option String
  id_without_query : String
  url_base : String
  url_resource : String
  url : String
deriving Repr, DecidableEq

/-- Source lines 319-356 of `retrieve`.  `urlparse` never returns `None` for
the fragment or query (it returns `""`), so the Python `is not None` guards
reduce to the emptiness and containment tests kept here. -/
def retrievePrepare (cfg : ServiceConfig) (id_ : String)
    (version : Option RetrieveVersion) (cross_bucket : Bool)
    (retrieve_source : Bool) : RetrievePrep :=
  let version_params : Option ParamDict := version.map versionParams
  let parsed_id := urlparse id_
  -- urlparse does not separate fragment and query params when the latter are
  -- put after a fragment, hence the re-parse of the fragment (lines 330-338)
  let fq : Option String × Option ParamDict :=
    if strContains parsed_id.fragment "?" then
      let fragment_parts := urlparse parsed_id.fragment
      (some fragment_parts.path, some (parseQs fragment_parts.query))
    else if parsed_id.fragment ≠ "" then (some parsed_id.fragment, none)
    else if parsed_id.query ≠ "" then (none, some (parseQs parsed_id.query))
    else (none, none)
  let query_params : Option ParamDict :=
    match version_params with
    | none => fq.2
    | some vp => some (dictUpdate (fq.2.getD []) vp)
  let id_without_query :=
    parsed_id.scheme ++ "://" ++ parsed_id.netloc ++ parsed_id.path ++
      (match fq.1 with | some f => "#" ++ f | none => "")
  let url_base := if cross_bucket then cfg.url_resolver else cfg.url_resources
  let url_resource := url_base ++ "/_/" ++ quote_plus id_without_query
  let url :=
    if retrieve_source && !cross_bucket then url_resource ++ "/source" else url_resource
  { query_params := query_params, fragment := fq.1, id_without_query := id_without_query,
    url_base := url_base, url_resource := url_resource, url := url }

/-- Source lines 357-377: the first lookup inside `try`, and the
`except RetrievalError` fallback that retries with the identifier used
directly when it starts with the store's resources path.  The returned pair is
the response that survived together with the value of the (possibly
re-assigned) `url_resource` local. -/
def retrieveFirstTry (cfg : ServiceConfig) (http : HttpOracle) (id_ : String)
    (cross_bucket : Bool) (retrieve_source : Bool) (prep : RetrievePrep) :
    Except StoreError (HttpResponse × String) :=
  let response := http prep.url prep.query_params
  if response.isOk then .ok (response, prep.url_resource)
  else
    -- `except RetrievalError as er`
    let er := StoreError.retrievalError response.status
    let nexus_path := if cross_bucket then cfg.endpoint ++ "/resources/" else cfg.url_resources
    if pyStartsWith id_ nexus_path then
      -- lines 366-375: url_resource := id_without_query, retry, re-check
      let url2 :=
        if retrieve_source && !cross_bucket then prep.id_without_query ++ "/source"
        else prep.id_without_query
      let response2 := http url2 prep.query_params
      if response2.isOk then .ok (response2, prep.id_without_query)
      else .error (StoreError.retrievalError response2.status)
    else .error er

/-- The `response_metadata` local of `retrieve`: either a real response or the
literal `True` assigned when no metadata fetch is needed (line 395). -/
inductive MetaResp where
  | resp (r : HttpResponse)
  | trueFlag
deriving Repr, DecidableEq

/-- Python truthiness of `response_metadata`. -/
def MetaResp.truthy : MetaResp → Bool
  | .resp r => r.isOk
  | .trueFlag => true

/-- Source lines 379-395: the secondary metadata/source fetch.  In the
cross-bucket branch (lines 386-392) the source applies `catch_http_error_nexus`
to `response` — the first response — rather than to `response_metadata`; the
embedding reproduces that line as written. -/
def retrieveMetaStep (http : HttpOracle) (cross_bucket : Bool)
    (retrieve_source : Bool) (prep : RetrievePrep)
    (response : HttpResponse) (url_resource : String) :
    Except StoreError MetaResp :=
  if retrieve_source && !cross_bucket then
    let response_metadata := http url_resource prep.query_params
    match catch_http_error_nexus response_metadata StoreError.retrievalError with
    | .error e => .error e
    | .ok _ => .ok (.resp response_metadata)
  else if retrieve_source && cross_bucket && response.isOk && response.selfLink.isSome then
    let response_metadata := http (response.selfLink.getD "" ++ "/source") prep.query_params
    match catch_http_error_nexus response StoreError.retrievalError with
    | .error e => .error e
    | .ok _ => .ok (.resp response_metadata)
  else .ok .trueFlag

/-- Modelled from the spec: `Service.to_resource`
(kgforge/specializations/stores/nexus/service.py is not among the sources)
maps a response payload to a `Resource`; the payload itself stands for the
resource here, and the conversion is total on these abstract payloads. -/
def to_resource (body : String) : String :=
  body

/-- `BlueBrainNexus.retrieve`, lines 305-419.  The result is `.error e` when
the Python code raises `e`, `.ok (some r)` when it returns a resource, and
`.ok none` when it falls off the end of the function (the implicit `return
None` after the final `if response and response_metadata:` guard).
`synchronize_resource` only updates the returned resource's metadata and
action log; it does not affect which of these three outcomes happens. -/
def retrieve (cfg : ServiceConfig) (http : HttpOracle) (id_ : String)
    (version : Option RetrieveVersion) (cross_bucket : Bool)
    (retrieve_source : Bool) : Except StoreError (Option String) :=
  let prep := retrievePrepare cfg id_ version cross_bucket retrieve_source
  match retrieveFirstTry cfg http id_ cross_bucket retrieve_source prep with
  | .error e => .error e
  | .ok (response, url_resource) =>
    match retrieveMetaStep http cross_bucket retrieve_source prep response url_resource with
    | .error e => .error e
    | .ok response_metadata =>
      if response.isOk && response_metadata.truthy then
        -- lines 398-419: build the resource; `data` is re-bound to the
        -- metadata payload only for synchronize_resource, which does not
        -- change the returned value
        let resource := to_resource response.body
        if retrieve_source && cross_bucket then
          match response_metadata with
          | .resp rm => .ok (some (to_resource rm.body))
          | .trueFlag =>
            -- `True.json()` raises AttributeError, rewrapped in ValueError
            .error (.valueError "AttributeError")
        else .ok (some resource)
      else .ok none

/-! ## Generic lemmas about the string helpers -/

theorem breakAt_of_not_mem {c : Char} {l : List Char} (h : c ∉ l) :
    breakAt c l = (l, none) := by
  induction l with
  | nil => rfl
  | cons a t ih =>
    simp only [List.mem_cons, not_or] at h
    simp [breakAt, Ne.symm h.1, ih h.2]

theorem breakAt_append_left {c : Char} {l₁ l₂ : List Char} (h : c ∉ l₁) :
    breakAt c (l₁ ++ l₂) = (l₁ ++ (breakAt c l₂).1, (breakAt c l₂).2) := by
  induction l₁ with
  | nil => simp
  | cons a t ih =>
    simp only [List.mem_cons, not_or] at h
    simp [breakAt, Ne.symm h.1, ih h.2]

theorem breakAt_append_cons {c : Char} {l₁ l₂ : List Char} (h : c ∉ l₁) :
    breakAt c (l₁ ++ c :: l₂) = (l₁, some l₂) := by
  rw [breakAt_append_left h]
  simp [breakAt]

theorem takeWhile_append_cons {p : Char → Bool} {l₁ l₂ : List Char} {a : Char}
    (h₁ : ∀ x ∈ l₁, p x = true) (h₂ : p a = false) :
    (l₁ ++ a :: l₂).takeWhile p = l₁ := by
  induction l₁ with
  | nil => simp [List.takeWhile, h₂]
  | cons b t ih =>
    simp only [List.mem_cons] at h₁
    simp [List.takeWhile, h₁ b (Or.inl rfl), ih fun x hx => h₁ x (Or.inr hx)]

theorem dropWhile_append_cons {p : Char → Bool} {l₁ l₂ : List Char} {a : Char}
    (h₁ : ∀ x ∈ l₁, p x = true) (h₂ : p a = false) :
    (l₁ ++ a :: l₂).dropWhile p = a :: l₂ := by
  induction l₁ with
  | nil => simp [List.dropWhile, h₂]
  | cons b t ih =>
    simp only [List.mem_cons] at h₁
    simp [List.dropWhile, h₁ b (Or.inl rfl), ih fun x hx => h₁ x (Or.inr hx)]

theorem containsSub_singleton_of_mem {c : Char} {l : List Char} (h : c ∈ l) :
    containsSub [c] l = true := by
  induction l with
  | nil => cases h
  | cons a t ih =>
    rcases List.mem_cons.mp h with h | h
    · subst h; simp [containsSub, List.isPrefixOf]
    · simp [containsSub, ih h]

/-- Being a lowercase ASCII letter, the character class the scheme hypotheses
of the retrieve theorems use. -/
def isLowerAlpha (c : Char) : Bool :=
  97 ≤ c.toNat && c.toNat ≤ 122

theorem toLower_eq_self_of_isLowerAlpha {c : Char} (h : isLowerAlpha c = true) :
    c.toLower = c := by
  simp only [isLowerAlpha, Bool.and_eq_true, decide_eq_true_eq] at h
  simp only [Char.toLower]
  rw [if_neg]
  omega

theorem isAlpha_of_isLowerAlpha {c : Char} (h : isLowerAlpha c = true) :
    c.isAlpha = true := by
  simp only [isLowerAlpha, Bool.and_eq_true, decide_eq_true_eq] at h
  simp only [Char.isAlpha, Char.isLower, Char.isUpper, Bool.or_eq_true, Bool.and_eq_true,
    decide_eq_true_eq, ge_iff_le]
  right
  exact ⟨h.1, h.2⟩

theorem schemeChar_of_isLowerAlpha {c : Char} (h : isLowerAlpha c = true) :
    schemeChar c = true := by
  simp [schemeChar, Char.isAlphanum, isAlpha_of_isLowerAlpha h]

theorem ne_of_isLowerAlpha {c : Char} (h : isLowerAlpha c = true)
    {d : Char} (hd : d.toNat < 97) : c ≠ d := by
  intro he
  subst he
  simp only [isLowerAlpha, Bool.and_eq_true, decide_eq_true_eq] at h
  omega

/-- `splitScheme` finds no scheme when the run before the first colon contains
a character that is not a scheme character. -/
theorem splitScheme_of_bad_prefix {l : List Char}
    (h : ∃ c ∈ (breakAt ':' l).1, schemeChar c = false) :
    splitScheme l = ([], l) := by
  obtain ⟨c, hc, hcs⟩ := h
  unfold splitScheme
  match hb : (breakAt ':' l).2 with
  | none => simp [hb]
  | some rest =>
    simp only [hb]
    rw [if_neg]
    rintro ⟨-, -, hall⟩
    have := List.all_eq_true.mp hall c hc
    simp [hcs] at this

/-- Mapping `toLower` over lowercase letters is the identity. -/
theorem map_toLower_eq_self {l : List Char} (h : ∀ c ∈ l, isLowerAlpha c = true) :
    l.map Char.toLower = l := by
  induction l with
  | nil => rfl
  | cons a t ih =>
    simp only [List.map_cons]
    rw [toLower_eq_self_of_isLowerAlpha (h a (List.mem_cons_self a t)),
      ih fun c hc => h c (List.mem_cons_of_mem a hc)]

/-- On input `scheme://netloc path # fragment ? query` with well-formed
components, `urlparse` returns the components literally, with the fragment
carrying the embedded query string (CPython splits the fragment off first). -/
theorem urlparse_components
    (s n p f q : String)
    (hs0 : s.data ≠ [])
    (hs : ∀ c ∈ s.data, isLowerAlpha c = true)
    (hn : ∀ c ∈ n.data, netlocEnd c = false)
    (hp : ∀ c ∈ p.data, c ≠ '#' ∧ c ≠ '?')
    (hp0 : p.data.headD '/' = '/') :
    urlparse (s ++ "://" ++ n ++ p ++ "#" ++ f ++ "?" ++ q) =
      { scheme := s, netloc := n, path := p, query := "",
        fragment := f ++ "?" ++ q } := by
  have hcolon : ':' ∉ s.data := by
    intro hmem
    exact ne_of_isLowerAlpha (hs _ hmem) (by decide) rfl
  have hdata : (s ++ "://" ++ n ++ p ++ "#" ++ f ++ "?" ++ q).data
      = s.data ++ ':' :: ('/' :: '/' ::
          (n.data ++ (p.data ++ '#' :: (f.data ++ '?' :: q.data)))) := by
    simp [String.data_append]
  have hsplit : splitScheme (s ++ "://" ++ n ++ p ++ "#" ++ f ++ "?" ++ q).data
      = (s.data, '/' :: '/' :: (n.data ++ (p.data ++ '#' :: (f.data ++ '?' :: q.data)))) := by
    rw [hdata]
    unfold splitScheme
    rw [breakAt_append_cons hcolon]
    simp only
    rw [if_pos]
    · rw [map_toLower_eq_self hs]
    · refine ⟨hs0, ?_, List.all_eq_true.mpr fun c hc => schemeChar_of_isLowerAlpha (hs c hc)⟩
      match hsd : s.data with
      | [] => exact absurd hsd hs0
      | c :: t =>
        simp only [List.headD_cons]
        exact isAlpha_of_isLowerAlpha (hs c (by rw [hsd]; exact List.mem_cons_self c t))
  have hnall : ∀ c ∈ n.data, (fun c => !netlocEnd c) c = true := by
    intro c hc
    simp [hn c hc]
  have hbody : ∃ t : List Char,
      p.data ++ '#' :: (f.data ++ '?' :: q.data) = t ∧
      (n.data ++ t).takeWhile (fun c => !netlocEnd c) = n.data ∧
      (n.data ++ t).dropWhile (fun c => !netlocEnd c) = t := by
    refine ⟨p.data ++ '#' :: (f.data ++ '?' :: q.data), rfl, ?_, ?_⟩ <;>
      cases hpd : p.data with
      | nil =>
        simp only [List.nil_append]
        first
        | exact takeWhile_append_cons hnall (by simp [netlocEnd])
        | exact dropWhile_append_cons hnall (by simp [netlocEnd])
      | cons c t =>
        have hc : c = '/' := by
          rw [hpd] at hp0
          simpa using hp0
        subst hc
        simp only [List.cons_append]
        first
        | exact takeWhile_append_cons hnall (by simp [netlocEnd])
        | exact dropWhile_append_cons hnall (by simp [netlocEnd])
  obtain ⟨body, hbodyEq, htake, hdrop⟩ := hbody
  have hhashP : '#' ∉ p.data := fun hmem => (hp _ hmem).1 rfl
  have hqmP : '?' ∉ p.data := fun hmem => (hp _ hmem).2 rfl
  simp only [urlparse]
  rw [hsplit]
  simp only [List.take_succ_cons, List.take_zero, List.drop_succ_cons, List.drop_zero,
    if_pos rfl, if_true]
  rw [hbodyEq, htake, hdrop, ← hbodyEq]
  rw [breakAt_append_cons hhashP, breakAt_of_not_mem hqmP]
  congr 1
  apply String.ext
  simp [String.data_append, List.append_assoc]

/-- Parsing a bare `fragment?query` string (no scheme, no netloc, no `#`)
yields the fragment text as the path and the embedded query as the query. -/
theorem urlparse_fragment_query
    (f q : String)
    (hf : ∀ c ∈ f.data, c ≠ '#' ∧ c ≠ '?' ∧ c ≠ ':' ∧ c ≠ '/')
    (hq : ∀ c ∈ q.data, c ≠ '#') :
    urlparse (f ++ "?" ++ q) =
      { scheme := "", netloc := "", path := f, query := q, fragment := "" } := by
  have hdata : (f ++ "?" ++ q).data = f.data ++ '?' :: q.data := by
    simp [String.data_append]
  have hcolonF : ':' ∉ f.data := fun hmem => (hf _ hmem).2.2.1 rfl
  have hscheme : splitScheme (f.data ++ '?' :: q.data) = ([], f.data ++ '?' :: q.data) := by
    apply splitScheme_of_bad_prefix
    refine ⟨'?', ?_, by decide⟩
    rw [breakAt_append_left hcolonF]
    have : breakAt ':' ('?' :: q.data)
        = ('?' :: (breakAt ':' q.data).1, (breakAt ':' q.data).2) := by
      simp [breakAt]
    rw [this]
    simp
  have hslash : (f.data ++ '?' :: q.data).take 2 ≠ ['/', '/'] := by
    cases hfd : f.data with
    | nil =>
      simp only [List.nil_append, List.take_succ_cons]
      intro hcontra
      simp at hcontra
    | cons c t =>
      have hc : c ≠ '/' := by
        have := hf c (by rw [hfd]; exact List.mem_cons_self c t)
        exact this.2.2.2
      simp only [List.cons_append, List.take_succ_cons]
      intro hcontra
      rw [List.cons_eq_cons] at hcontra
      exact hc hcontra.1
  have hhash : '#' ∉ f.data ++ '?' :: q.data := by
    intro hmem
    rcases List.mem_append.mp hmem with h | h
    · exact (hf _ h).1 rfl
    · rcases List.mem_cons.mp h with h | h
      · cases h
      · exact hq _ h rfl
  have hqmF : '?' ∉ f.data := fun hmem => (hf _ hmem).2.1 rfl
  simp only [urlparse]
  rw [hdata, hscheme]
  simp only
  rw [if_neg hslash]
  simp only
  rw [breakAt_of_not_mem hhash]
  simp only [Option.getD_none]
  rw [breakAt_append_cons hqmF]
  rfl

/-- C6: `retrieve` on an identifier of the form
`scheme://netloc/path#fragment?key=value` bases the lookup URL on
`scheme://netloc/path#fragment` (the fragment is kept and the whole identifier
is URL-quoted into the resources path), while the query parameters embedded
after the fragment are stripped from the identifier, parsed with `parse_qs`,
merged with the `rev`/`tag` version parameter, and handed to the HTTP request
(`retrieve` issues its lookup at `url` with `query_params` by definition of
`retrieveFirstTry`). -/
theorem retrieve_fragment_query_separation
    (cfg : ServiceConfig) (s n p f q : String)
    (version : Option RetrieveVersion) (cross_bucket retrieve_source : Bool)
    (hs0 : s.data ≠ []) (hs : ∀ c ∈ s.data, isLowerAlpha c = true)
    (hn : ∀ c ∈ n.data, netlocEnd c = false)
    (hp : ∀ c ∈ p.data, c ≠ '#' ∧ c ≠ '?') (hp0 : p.data.headD '/' = '/')
    (hf : ∀ c ∈ f.data, c ≠ '#' ∧ c ≠ '?' ∧ c ≠ ':' ∧ c ≠ '/')
    (hq : ∀ c ∈ q.data, c ≠ '#') :
    retrievePrepare cfg (s ++ "://" ++ n ++ p ++ "#" ++ f ++ "?" ++ q) version
        cross_bucket retrieve_source =
      { query_params := some (match version with
          | none => parseQs q
          | some v => dictUpdate (parseQs q) (versionParams v)),
        fragment := some f,
        id_without_query := s ++ "://" ++ n ++ p ++ "#" ++ f,
        url_base := if cross_bucket then cfg.url_resolver else cfg.url_resources,
        url_resource := (if cross_bucket then cfg.url_resolver else cfg.url_resources)
          ++ "/_/" ++ quote_plus (s ++ "://" ++ n ++ p ++ "#" ++ f),
        url := (if retrieve_source && !cross_bucket then
            (if cross_bucket then cfg.url_resolver else cfg.url_resources)
              ++ "/_/" ++ quote_plus (s ++ "://" ++ n ++ p ++ "#" ++ f) ++ "/source"
          else
            (if cross_bucket then cfg.url_resolver else cfg.url_resources)
              ++ "/_/" ++ quote_plus (s ++ "://" ++ n ++ p ++ "#" ++ f)) } := by
  have h1 := urlparse_components s n p f q hs0 hs hn hp hp0
  have h2 := urlparse_fragment_query f q hf hq
  have hcontains : strContains (f ++ "?" ++ q) "?" = true := by
    apply containsSub_singleton_of_mem
    simp [String.data_append]
  simp only [retrievePrepare, h1, h2, hcontains, if_true]
  cases version <;>
    simp [versionParams, String.append_assoc]

/-- C6 witness: the separation theorem applied to the concrete identifier
`https://ex.org/res#frag?tag=v1&x=y` with version `rev 3`. -/
theorem retrieve_fragment_query_separation_witness :
    retrievePrepare
        { endpoint := "https://nexus-instance.org",
          url_resources := "https://nexus-instance.org/resources/test/kgforge",
          url_resolver := "https://nexus-instance.org/resolvers/test/kgforge" }
        ("https" ++ "://" ++ "ex.org" ++ "/res" ++ "#" ++ "frag" ++ "?" ++ "tag=v1&x=y")
        (some (RetrieveVersion.rev 3)) false true =
      { query_params := some (dictUpdate (parseQs "tag=v1&x=y")
          (versionParams (RetrieveVersion.rev 3))),
        fragment := some "frag",
        id_without_query := "https" ++ "://" ++ "ex.org" ++ "/res" ++ "#" ++ "frag",
        url_base := "https://nexus-instance.org/resources/test/kgforge",
        url_resource := "https://nexus-instance.org/resources/test/kgforge"
          ++ "/_/" ++ quote_plus ("https" ++ "://" ++ "ex.org" ++ "/res" ++ "#" ++ "frag"),
        url := "https://nexus-instance.org/resources/test/kgforge"
          ++ "/_/" ++ quote_plus ("https" ++ "://" ++ "ex.org" ++ "/res" ++ "#" ++ "frag")
          ++ "/source" } :=
  retrieve_fragment_query_separation _ "https" "ex.org" "/res" "frag" "tag=v1&x=y"
    (some (RetrieveVersion.rev 3)) false true
    (by decide) (by decide) (by decide) (by decide) (by decide) (by decide) (by decide)

/-- The concrete store endpoints of the repository's test configuration
(endpoint `https://nexus-instance.org`, bucket `test/kgforge`). -/
def nexusCfg : ServiceConfig :=
  { endpoint := "https://nexus-instance.org",
    url_resources := "https://nexus-instance.org/resources/test/kgforge",
    url_resolver := "https://nexus-instance.org/resolvers/test/kgforge" }

/-- An identifier that starts with the store's resources path. -/
def storePathId : String :=
  "https://nexus-instance.org/resources/test/kgforge/_/myid"

/-- Oracle for the fallback counterexample: the quoted first-lookup URL
answers 500, the direct-identifier retry URL answers 503. -/
def fallbackHttp : HttpOracle := fun url _ =>
  if url = storePathId ++ "/source" then { status := 503, body := "" }
  else { status := 500, body := "" }

/-- C2 counterexample: the first lookup fails with 500 — not 404 — on an
identifier that starts with the resources path, yet the fallback retry is
attempted, and since the retry fails with 503 the raised error is the retry's
`RetrievalError(503)`, not the original `RetrievalError(500)`. -/
theorem retrieve_fallback_counterexample :
    retrieve nexusCfg fallbackHttp storePathId none false true
        = .error (.retrievalError 503) ∧
      StoreError.retrievalError 503 ≠ StoreError.retrievalError 500 := by
  constructor
  · rfl
  · decide

/-- C2 amended: when the first lookup of `retrieve` fails, the fallback is
triggered by any `RetrievalError` — not only a 404 — provided the identifier
starts with the store's resources path; when the identifier does not start
with that path the original error is re-raised; and when the retry itself
fails, the retry's own error (not the original one) propagates. -/
theorem retrieve_fallback_amended
    (cfg : ServiceConfig) (http : HttpOracle) (id_ : String)
    (version : Option RetrieveVersion) (cross_bucket retrieve_source : Bool)
    (hfail : (http (retrievePrepare cfg id_ version cross_bucket retrieve_source).url
        (retrievePrepare cfg id_ version cross_bucket retrieve_source).query_params).isOk
          = false) :
    (pyStartsWith id_
        (if cross_bucket then cfg.endpoint ++ "/resources/" else cfg.url_resources) = false →
      retrieve cfg http id_ version cross_bucket retrieve_source =
        .error (.retrievalError
          (http (retrievePrepare cfg id_ version cross_bucket retrieve_source).url
            (retrievePrepare cfg id_ version cross_bucket retrieve_source).query_params).status)) ∧
    (pyStartsWith id_
        (if cross_bucket then cfg.endpoint ++ "/resources/" else cfg.url_resources) = true →
      (http (if retrieve_source && !cross_bucket then
            (retrievePrepare cfg id_ version cross_bucket retrieve_source).id_without_query
              ++ "/source"
          else (retrievePrepare cfg id_ version cross_bucket retrieve_source).id_without_query)
        (retrievePrepare cfg id_ version cross_bucket retrieve_source).query_params).isOk
          = false →
      retrieve cfg http id_ version cross_bucket retrieve_source =
        .error (.retrievalError
          (http (if retrieve_source && !cross_bucket then
              (retrievePrepare cfg id_ version cross_bucket retrieve_source).id_without_query
                ++ "/source"
            else (retrievePrepare cfg id_ version cross_bucket
              retrieve_source).id_without_query)
            (retrievePrepare cfg id_ version cross_bucket
              retrieve_source).query_params).status)) := by
  constructor
  · intro hstart
    simp [retrieve, retrieveFirstTry, hfail, hstart]
  · intro hstart hretry
    simp at hretry
    simp [retrieve, retrieveFirstTry, hfail, hstart, hretry]

/-- An oracle answering every request with the same status code. -/
def constHttp (st : Nat) : HttpOracle := fun _ _ =>
  { status := st, body := "" }

/-- Oracle answering 404 on the first lookup and 410 on the retry URL. -/
def fallback404Http : HttpOracle := fun url _ =>
  if url = storePathId ++ "/source" then { status := 410, body := "" }
  else { status := 404, body := "" }

/-- C2 witness: the amended fallback theorem at concrete inputs — a non-store
identifier whose failure (502) is re-raised unchanged, and a store-path
identifier whose failing retry (410 after a 404) propagates the retry's error. -/
theorem retrieve_fallback_amended_witness :
    retrieve nexusCfg (constHttp 502) "https://other.org/res" none false true
        = .error (.retrievalError 502) ∧
      retrieve nexusCfg fallback404Http storePathId none false true
        = .error (.retrievalError 410) :=
  ⟨(retrieve_fallback_amended nexusCfg (constHttp 502) "https://other.org/res"
      none false true (by decide)).1 (by decide),
    (retrieve_fallback_amended nexusCfg fallback404Http storePathId
      none false true (by decide)).2 (by decide) (by decide)⟩

/-- C10: with `retrieve_source=True` and `cross_bucket=True`, a successful
first lookup whose payload carries `_self` followed by a failing source fetch
makes `retrieve` return `None` without raising: the post-fetch error check is
applied to the first response object (which succeeded), and the final
`if response and response_metadata:` guard is then false, falling through to
the implicit `return None`. -/
theorem retrieve_returns_none_on_failed_source_fetch
    (cfg : ServiceConfig) (http : HttpOracle) (id_ : String)
    (version : Option RetrieveVersion) (sl : String)
    (h1 : (http (retrievePrepare cfg id_ version true true).url
        (retrievePrepare cfg id_ version true true).query_params).isOk = true)
    (hself : (http (retrievePrepare cfg id_ version true true).url
        (retrievePrepare cfg id_ version true true).query_params).selfLink = some sl)
    (h2 : (http (sl ++ "/source")
        (retrievePrepare cfg id_ version true true).query_params).isOk = false) :
    retrieve cfg http id_ version true true = .ok none := by
  have hcatch : catch_http_error_nexus
      (http (retrievePrepare cfg id_ version true true).url
        (retrievePrepare cfg id_ version true true).query_params)
      StoreError.retrievalError = .ok () := by
    unfold catch_http_error_nexus
    rw [if_neg]
    simp only [HttpResponse.isOk, decide_eq_true_eq] at h1
    omega
  simp [retrieve, retrieveFirstTry, retrieveMetaStep, h1, hself, hcatch,
    MetaResp.truthy, h2]

/-- Oracle for the C10 witness: the cross-bucket lookup succeeds with a
payload carrying `_self`, while the source fetch at `_self + "/source"`
answers 404. -/
def failedSourceHttp : HttpOracle := fun url _ =>
  if url = "https://self.example/x/source" then { status := 404, body := "" }
  else { status := 200, body := "payload", selfLink := some "https://self.example/x" }

/-- C10 witness: the none-returning theorem at a concrete identifier and oracle. -/
theorem retrieve_returns_none_witness :
    retrieve nexusCfg failedSourceHttp "https://ex.org/res" none true true = .ok none :=
  retrieve_returns_none_on_failed_source_fetch nexusCfg failedSourceHttp
    "https://ex.org/res" none "https://self.example/x" (by decide) (by decide) (by decide)

/-! ## `BlueBrainNexus._register_one` (bluebrain_nexus.py lines 212-250) -/

/-- The slice of a `Resource`'s mutable state `_register_one` touches: the
identifier, the JSON-LD context attribute (absent when `hasattr` is false),
and the attached store-metadata record. -/
structure ResourceState where
  id : Option String
  context : Option String
  store_metadata : Option String
deriving Repr, DecidableEq

/-- Modelled from the spec: `Service.sync_metadata`
(kgforge/specializations/stores/nexus/service.py is not among the sources)
replaces the resource's store-metadata record wholesale with the
server-returned metadata. -/
def sync_metadata (r : ResourceState) (responseBody : String) : ResourceState :=
  { r with store_metadata := some responseBody }

/-- `BlueBrainNexus._register_one` as a state transformer on the resource.
The JSON-LD payload and the PUT/POST URL are built first (lines 213-242,
side-effect free), the single request's response is the `response` argument,
`catch_http_error_nexus` raises `RegistrationError` on a non-success status
(line 243), and only after that check does the code write back the server
`@id`, the context (only when the resource had none; its value comes from the
payload's `@context`, the `model_context` argument here) and the metadata
(lines 245-250).  The returned pair carries the outcome and the resource
state after the call. -/
def _register_one (model_context : String) (resource : ResourceState)
    (response : HttpResponse) : Except StoreError Unit × ResourceState :=
  match catch_http_error_nexus response StoreError.registrationError with
  | .error e => (.error e, resource)
  | .ok _ =>
    let r1 := { resource with id := some response.atId }
    let r2 := if r1.context.isSome then r1 else { r1 with context := some model_context }
    (.ok (), sync_metadata r2 response.body)

/-- C5: when the response status is not a success, `_register_one` raises
`RegistrationError` at once and the resource's identifier, context and store
metadata are left exactly as they were — the write-back runs only after the
success check passes. -/
theorem register_one_failure_leaves_resource_unchanged
    (model_context : String) (resource : ResourceState) (response : HttpResponse)
    (h : response.isOk = false) :
    _register_one model_context resource response =
      (.error (.registrationError response.status), resource) := by
  have h400 : 400 ≤ response.status := by
    simp only [HttpResponse.isOk, decide_eq_false_iff_not, not_lt] at h
    omega
  simp [_register_one, catch_http_error_nexus, if_pos h400]

/-- C5 witness: a 409-conflict response leaves a concrete resource untouched. -/
theorem register_one_failure_witness :
    _register_one "ctx-doc"
        { id := some "https://ex.org/a", context := none, store_metadata := none }
        { status := 409, body := "conflict" } =
      (.error (.registrationError 409),
        { id := some "https://ex.org/a", context := none, store_metadata := none }) :=
  register_one_failure_leaves_resource_unchanged "ctx-doc"
    { id := some "https://ex.org/a", context := none, store_metadata := none }
    { status := 409, body := "conflict" } (by decide)

/-! ## `BlueBrainNexus._initialize_service` (bluebrain_nexus.py lines 929-993) -/

/-- The validated outputs `_initialize_service` hands to the `Service`
constructor. -/
structure ServiceInit where
  organisation : String
  project : String
  max_connection : Int
deriving Repr, DecidableEq

/-- `BlueBrainNexus._initialize_service`: inside a `try` whose `except` clause
rewraps any failure in `ValueError("Store configuration error: ...")`, the
bucket is unpacked into organisation and project by splitting on `/` (tuple
unpacking raises unless the split has exactly two parts; a `None` bucket
raises `AttributeError`), then a non-positive `max_connection`
(default 50) raises; only when both checks pass is the `Service` constructed.
The vocabulary/header/params pops (lines 944-971) have defaults and cannot
raise; they are elided here. -/
def _initialize_service (bucket : Option String) (max_connection : Option Int) :
    Except StoreError ServiceInit :=
  match bucket with
  | none => .error (.valueError "Store configuration error")
  | some b =>
    match pySplit b "/" with
    | [org, prj] =>
      let mc := max_connection.getD 50
      if mc ≤ 0 then .error (.valueError "Store configuration error")
      else .ok { organisation := org, project := prj, max_connection := mc }
    | _ => .error (.valueError "Store configuration error")

/-- C8: a bucket that does not split into exactly an organisation and a
project on `/`, or a non-positive `max_connection`, makes
`_initialize_service` raise a `ValueError` synchronously — the function
returns no `ServiceInit`, so no `Service` exists to perform any store
operation or network call, and the single evaluation embodies the absence of
retries. -/
theorem initialize_service_config_errors
    (b : String) (mc : Option Int)
    (hbad : (pySplit b "/").length ≠ 2 ∨ mc.getD 50 ≤ 0) :
    _initialize_service (some b) mc = .error (.valueError "Store configuration error") := by
  match hsp : pySplit b "/" with
  | [] => simp [_initialize_service, hsp]
  | [x] => simp [_initialize_service, hsp]
  | [x, y] =>
    have hmc : mc.getD 50 ≤ 0 := by
      rcases hbad with h | h
      · rw [hsp] at h
        simp at h
      · exact h
    simp [_initialize_service, hsp, hmc]
  | x :: y :: z :: t => simp [_initialize_service, hsp]

/-- C8 witness: a bucket without `/` and a zero connection cap each raise. -/
theorem initialize_service_config_errors_witness :
    _initialize_service (some "invalid") none
        = .error (.valueError "Store configuration error") ∧
      _initialize_service (some "test/kgforge") (some 0)
        = .error (.valueError "Store configuration error") :=
  ⟨initialize_service_config_errors "invalid" none (by decide),
    initialize_service_config_errors "test/kgforge" (some 0) (by decide)⟩

/-! ## `BlueBrainNexus.search` (bluebrain_nexus.py lines 688-872) -/

/-- The value a `Filter` carries (string, number, or boolean literal). -/
inductive FilterValue where
  | str (s : String)
  | int (n : Int)
  | bool (b : Bool)
deriving Repr, DecidableEq

/-- The store-agnostic filter of kgforge/core/wrappings/paths.py (an external
collaborator, declared there as the triple path/operator/value with structural
equality). -/
structure KgFilter where
  path : List String
  operator : String
  value : FilterValue
deriving Repr, DecidableEq

/-- The keyword parameters `search` reads out of `params` (lines 696-708),
with their source defaults.  `filters_in_params` records whether a `filters`
key was passed among the params (line 717). -/
structure SearchParams where
  deprecated : Bool := false
  cross_bucket : Bool := false
  bucket : Option String := none
  search_in_graph : Bool := true
  distinct : Bool := false
  includes : Option (List String) := none
  excludes : Option (List String) := none
  search_endpoint : Option String := none
  filters_in_params : Bool := false
deriving Repr, DecidableEq

/-- The store state `search` dereferences: the model context's presence, the
two configured endpoint type names, and the data needed for the implicit
filters.  The `*_term_name` fields model
`metadata_context.find_term(...)` (the `Context` class is an external
collaborator): `none` when the term is not found. -/
structure SearchConfig where
  model_context_present : Bool := true
  sparql_endpoint_type : String := "sparql"
  elastic_endpoint_type : String := "elasticsearch"
  endpoint : String := "https://nexus-instance.org"
  organisation : String := "test"
  project : String := "kgforge"
  deprecated_property_term_name : Option String := some "_deprecated"
  project_property_term_name : Option String := some "_project"
deriving Repr, DecidableEq

/-- Python truthiness of the `bucket` parameter (`if bucket:`). -/
def bucketTruthy (p : SearchParams) : Bool :=
  match p.bucket with
  | some b => b ≠ ""
  | none => false

/-- Python truthiness of `includes or excludes` (an empty list is falsy). -/
def includesOrExcludes (p : SearchParams) : Bool :=
  (match p.includes with | some l => !l.isEmpty | none => false) ||
    (match p.excludes with | some l => !l.isEmpty | none => false)

/-- The implicit deprecation filter appended on the Elasticsearch path
(lines 828-839). -/
def deprecationFilter (cfg : SearchConfig) (p : SearchParams) : KgFilter :=
  { path := [cfg.deprecated_property_term_name.getD "_deprecated"],
    operator := "__eq__", value := .bool p.deprecated }

/-- The `_project` value of lines 840-845: the bucket's project IRI when a
bucket is given, the store's own project IRI when not searching cross-bucket,
and nothing otherwise. -/
def projectValue (cfg : SearchConfig) (p : SearchParams) : Option String :=
  if bucketTruthy p then
    some (cfg.endpoint ++ "/projects/" ++ p.bucket.getD "")
  else if !p.cross_bucket then
    some (cfg.endpoint ++ "/projects/" ++ cfg.organisation ++ "/" ++ cfg.project)
  else none

/-- The project-scoping filter entries appended on the Elasticsearch path
(lines 847-858): one entry when `_project` is set, none otherwise. -/
def projectFilterList (cfg : SearchConfig) (p : SearchParams) : List KgFilter :=
  match projectValue cfg p with
  | some prj =>
    [{ path := [cfg.project_property_term_name.getD "_project"],
       operator := "__eq__", value := .str prj }]
  | none => []

/-- The point at which `search` hands a query to the HTTP layer: the SPARQL
plan (what `SPARQLQueryBuilder.build` and `_create_select_query` receive before
`self.sparql` issues the request) or the Elasticsearch plan (what
`ESQueryBuilder.build` receives before `self.elastic` issues the request).
An HTTP request happens only downstream of one of these plans. -/
inductive SearchPlan where
  | sparqlQuery (filters : List KgFilter) (distinct : Bool) (search_in_graph : Bool)
  | elasticQuery (filters : List KgFilter) (includes excludes : Option (List String))
deriving Repr, DecidableEq

/-- `BlueBrainNexus.search`, embedded up to the first HTTP request.  The input
`filters` is the caller's list of `Filter` objects; the dict-normalization
branch of lines 725-732 rebinds the local name only when `filters[0]` is a
mapping (and the `filters[0] is None` check cannot fire on a typed list), so
for a list of `Filter` values the local stays the caller's object and the
Elasticsearch-path `append`s mutate it — the second component of the result is
that final state of the caller's list.  Every validation error is returned
before a plan (hence before any HTTP request) is produced, in source order:
missing model context (line 693), unsupported `search_endpoint` (709),
`filters` among params (717), `bucket` without `cross_bucket` (722),
includes/excludes on the SPARQL path (735). -/
def search (cfg : SearchConfig) (p : SearchParams) (filters : List KgFilter) :
    Except StoreError (SearchPlan × List KgFilter) :=
  if !cfg.model_context_present then .error (.valueError "context model missing")
  else
    let search_endpoint := p.search_endpoint.getD cfg.sparql_endpoint_type
    if search_endpoint ≠ cfg.sparql_endpoint_type ∧
        search_endpoint ≠ cfg.elastic_endpoint_type then
      .error (.valueError "The provided search_endpoint value is not supported")
    else if p.filters_in_params then
      .error (.valueError "A filters key was provided as params. Filters should be provided as iterable.")
    else if bucketTruthy p && !p.cross_bucket then
      .error (.notSupportedError "bucket")
    else if search_endpoint = cfg.sparql_endpoint_type then
      if includesOrExcludes p then
        .error (.valueError "Field inclusion and exclusion are not supported when using SPARQL")
      else
        .ok (.sparqlQuery filters p.distinct p.search_in_graph, filters)
    else
      let filters1 := filters ++ [deprecationFilter cfg p]
      let filters2 := filters1 ++ projectFilterList cfg p
      .ok (.elasticQuery filters2 p.includes p.excludes, filters2)

/-- C4: each of `search`'s validation errors — an unknown `search_endpoint`
value, `bucket` without `cross_bucket`, and `includes`/`excludes` when the
SPARQL endpoint is selected — is raised with the embedding returning the
error; since an HTTP request exists only downstream of a returned `.ok` query
plan, each of these errors is raised before any HTTP request is issued. -/
theorem search_validation_errors
    (cfg : SearchConfig) (p : SearchParams) (filters : List KgFilter)
    (hmc : cfg.model_context_present = true) :
    (∀ s, p.search_endpoint = some s → s ≠ cfg.sparql_endpoint_type →
      s ≠ cfg.elastic_endpoint_type →
      search cfg p filters =
        .error (.valueError "The provided search_endpoint value is not supported")) ∧
    ((p.search_endpoint.getD cfg.sparql_endpoint_type = cfg.sparql_endpoint_type ∨
        p.search_endpoint.getD cfg.sparql_endpoint_type = cfg.elastic_endpoint_type) →
      p.filters_in_params = false →
      bucketTruthy p = true → p.cross_bucket = false →
      search cfg p filters = .error (.notSupportedError "bucket")) ∧
    (p.search_endpoint.getD cfg.sparql_endpoint_type = cfg.sparql_endpoint_type →
      p.filters_in_params = false →
      (bucketTruthy p = false ∨ p.cross_bucket = true) →
      includesOrExcludes p = true →
      search cfg p filters =
        .error (.valueError
          "Field inclusion and exclusion are not supported when using SPARQL")) := by
  refine ⟨?_, ?_, ?_⟩
  · intro s hse hs1 hs2
    simp [search, hmc, hse, hs1, hs2]
  · intro hvalid hfp hbk hcb
    have hcond : ¬(p.search_endpoint.getD cfg.sparql_endpoint_type ≠ cfg.sparql_endpoint_type ∧
        p.search_endpoint.getD cfg.sparql_endpoint_type ≠ cfg.elastic_endpoint_type) := by
      rcases hvalid with h | h <;> simp [h]
    simp [search, hmc, hcond, hfp, hbk, hcb]
  · intro hsp hfp hbk hie
    have hbkF : (bucketTruthy p && !p.cross_bucket) = false := by
      rcases hbk with h | h <;> simp [h]
    simp [search, hmc, hsp, hfp, hbkF, hie]

/-- C4 witness: the three validation errors at concrete parameter values — an
unknown endpoint `graphql`, a bucket given while `cross_bucket` is false, and
`includes` on the (default) SPARQL endpoint. -/
theorem search_validation_errors_witness :
    search {} { search_endpoint := some "graphql" } []
        = .error (.valueError "The provided search_endpoint value is not supported") ∧
      search {} { bucket := some "other/project" } []
        = .error (.notSupportedError "bucket") ∧
      search {} { includes := some ["id"] } []
        = .error (.valueError
            "Field inclusion and exclusion are not supported when using SPARQL") :=
  ⟨(search_validation_errors {} { search_endpoint := some "graphql" } [] (by decide)).1
      "graphql" rfl (by decide) (by decide),
    (search_validation_errors {} { bucket := some "other/project" } [] (by decide)).2.1
      (Or.inl rfl) rfl (by decide) rfl,
    (search_validation_errors {} { includes := some ["id"] } [] (by decide)).2.2
      rfl rfl (Or.inl rfl) (by decide)⟩

/-- C9: on the Elasticsearch path, `search` appends the implicit deprecation
filter and — when a bucket is given or `cross_bucket` is false — the
project-scoping filter to the caller's filter list in place: since the local
name is never rebound for a list of `KgFilter`s, the caller's own list after
the call equals its old value extended by exactly those entries, growing by
two entries when the project filter applies and one otherwise. -/
theorem search_es_mutates_filters
    (cfg : SearchConfig) (p : SearchParams) (filters : List KgFilter)
    (hmc : cfg.model_context_present = true)
    (hep : p.search_endpoint.getD cfg.sparql_endpoint_type = cfg.elastic_endpoint_type)
    (hne : cfg.elastic_endpoint_type ≠ cfg.sparql_endpoint_type)
    (hfp : p.filters_in_params = false)
    (hbk : bucketTruthy p = false ∨ p.cross_bucket = true) :
    search cfg p filters =
      .ok (.elasticQuery
          (filters ++ [deprecationFilter cfg p] ++ projectFilterList cfg p)
          p.includes p.excludes,
        filters ++ [deprecationFilter cfg p] ++ projectFilterList cfg p) ∧
    (filters ++ [deprecationFilter cfg p] ++ projectFilterList cfg p).length =
      filters.length + (if bucketTruthy p || !p.cross_bucket then 2 else 1) := by
  have hbkF : (bucketTruthy p && !p.cross_bucket) = false := by
    rcases hbk with h | h <;> simp [h]
  have hnsp : ¬ p.search_endpoint.getD cfg.sparql_endpoint_type = cfg.sparql_endpoint_type := by
    rw [hep]
    exact hne
  constructor
  · simp [search, hmc, hep, hnsp, hbkF, hfp, hne]
  · rcases hbk with h | h
    · by_cases hcb : p.cross_bucket = true
      · simp [projectFilterList, projectValue, h, hcb]
      · simp only [Bool.not_eq_true] at hcb
        simp [projectFilterList, projectValue, h, hcb]
    · by_cases hb : bucketTruthy p = true
      · simp [projectFilterList, projectValue, h, hb]
      · simp only [Bool.not_eq_true] at hb
        simp [projectFilterList, projectValue, h, hb]

/-- A concrete caller-side filter for the C9 witness. -/
def personFilter : KgFilter :=
  { path := ["type"], operator := "__eq__", value := .str "Person" }

/-- Concrete search parameters selecting the Elasticsearch endpoint with
`cross_bucket=True` and no bucket. -/
def esParams : SearchParams :=
  { search_endpoint := some "elasticsearch", cross_bucket := true }

/-- C9 witness: the mutation theorem at concrete inputs — one filter in the
caller's list, Elasticsearch endpoint, no bucket, `cross_bucket=True`, so the
caller's list grows by exactly the deprecation filter. -/
theorem search_es_mutates_filters_witness :
    search {} esParams [personFilter] =
      .ok (.elasticQuery
          ([personFilter] ++ [deprecationFilter {} esParams]
            ++ projectFilterList {} esParams)
          none none,
        [personFilter] ++ [deprecationFilter {} esParams]
          ++ projectFilterList {} esParams) ∧
      ([personFilter] ++ [deprecationFilter {} esParams]
          ++ projectFilterList {} esParams).length = [personFilter].length + 1 :=
  search_es_mutates_filters {} esParams [personFilter]
    (by decide) rfl (by decide) rfl (Or.inr rfl)

/-! ## `BlueBrainNexus._upload_many` (lines 252-287) and the batched CRUD paths -/

/-- Python `re.findall("[A-Z][^A-Z]*", s)`: the camel-case segments of `s`,
each an uppercase letter followed by its non-uppercase run (fuel keeps the
recursion structural). -/
def findallCamelAux : Nat → List Char → List (List Char)
  | _, [] => []
  | 0, _ => []
  | fuel + 1, c :: rest =>
    if c.isUpper then
      (c :: rest.takeWhile (fun d => !d.isUpper))
        :: findallCamelAux fuel (rest.dropWhile (fun d => !d.isUpper))
    else findallCamelAux fuel rest

/-- Python `s.lower()` on ASCII data. -/
def pyLower (s : String) : String :=
  String.mk (s.data.map Char.toLower)

/-- The message `_upload` builds from a failing response's `@type`
(lines 282-284): the camel-case segments joined by spaces, lowercased. -/
def uploadErrorMessage (atType : String) : String :=
  pyLower (String.intercalate " "
    ((findallCamelAux atType.data.length atType.data).map String.mk))

/-- One `_upload` task (lines 275-285): the body when the status is below
400, otherwise the raised `UploadingError`. -/
def uploadTask (r : HttpResponse) : Except StoreError String :=
  if r.status < 400 then .ok r.body
  else .error (.uploadingError (uploadErrorMessage r.atType))

/-- `BlueBrainNexus._upload_many`: one `_upload` task per path is awaited
through `asyncio.gather` WITHOUT `return_exceptions`, so the batch either
returns every body or propagates a failing task's exception out of
`asyncio.run` — rendered deterministically as the first failure in list
order (which failure propagates does not matter to the claims).  `responses`
are the per-path responses of the shared upload session. -/
def _upload_many (responses : List HttpResponse) : Except StoreError (List String) :=
  match responses with
  | [] => .ok []
  | r :: rest =>
    match uploadTask r, _upload_many rest with
    | .error e, _ => .error e
    | .ok _, .error e => .error e
    | .ok b, .ok bs => .ok (b :: bs)

/-- The batched operations dispatched through `Service.batch_request`
(BatchAction in the service module). -/
inductive BatchAction where
  | create
  | update
  | tag
  | deprecate
deriving Repr, DecidableEq

/-- The typed error kind each batched operation wraps failures in
(`RegistrationError`, `UpdatingError`, `TaggingError`, `DeprecationError`). -/
def batchErrorOf : BatchAction → Nat → StoreError
  | .create => .registrationError
  | .update => .updatingError
  | .tag => .taggingError
  | .deprecate => .deprecationError

/-- A batch item's terminal outcome: the resource, its `_synchronized` flag,
and the error recorded by the completion callback when the item failed. -/
structure BatchResult where
  resource : ResourceState
  synchronized : Bool
  error : Option StoreError
deriving Repr, DecidableEq

/-- Modelled from the spec: `Service.batch_request` with the per-operation
completion callbacks (`register_callback` of `_register_many`,
`Service.default_callback`) and `Service.synchronize_resource` —
kgforge/specializations/stores/nexus/service.py is not among the sources.
Per spec sections 4.4 and 7: every verified resource is submitted
concurrently, and each task's completion callback records exactly one
terminal outcome for its resource — on success the server metadata is
synchronized (and `_register_many` writes the server `@id`) with
`_synchronized` true; on failure the operation's typed error is carried as
that item's result with `_synchronized` false.  A per-item exception is never
re-raised out of the batch call, which the total `List` return type embodies. -/
def batch_request (action : BatchAction)
    (items : List (ResourceState × HttpResponse)) : List BatchResult :=
  items.map fun item =>
    if item.2.isOk then
      { resource :=
          sync_metadata
            (if action = BatchAction.create then { item.1 with id := some item.2.atId }
             else item.1)
            item.2.body,
        synchronized := true, error := none }
    else
      { resource := item.1, synchronized := false,
        error := some (batchErrorOf action item.2.status) }

theorem batch_request_counts (action : BatchAction)
    (items : List (ResourceState × HttpResponse)) :
    ((batch_request action items).filter (fun r => r.synchronized)).length
        = (items.filter (fun it => it.2.isOk)).length ∧
      ((batch_request action items).filter (fun r => !r.synchronized)).length
        = (items.filter (fun it => !it.2.isOk)).length := by
  induction items with
  | nil => exact ⟨rfl, rfl⟩
  | cons it rest ih =>
    by_cases h : it.2.isOk = true <;>
      simp [batch_request, List.filter, h, ih.1, ih.2] at ih ⊢ <;>
      simp [List.map, List.filter, h, ih]

theorem filter_length_add_filter_not_length (l : List BatchResult) :
    (l.filter (fun r => r.synchronized)).length
        + (l.filter (fun r => !r.synchronized)).length = l.length := by
  induction l with
  | nil => rfl
  | cons r rest ih =>
    by_cases h : r.synchronized = true <;> simp [List.filter, h, ← ih] <;> omega

/-- C1 counterexample: a two-file upload batch where the second upload fails
(400, `@type` `FileTooLarge`): `_upload_many` raises the `UploadingError` out
of the batch call — `asyncio.gather` is used without `return_exceptions`, so
the task's exception propagates — instead of returning two per-item results
with one marked unsynchronized. -/
theorem upload_batch_raises_counterexample :
    _upload_many [{ status := 201, body := "stored" },
        { status := 400, body := "", atType := "FileTooLarge" }]
      = .error (.uploadingError "file too large") := by
  rfl

/-- C1 amended: for the four batched CRUD operations (register, update, tag,
deprecate), a batch of N resources among whose underlying calls exactly one
fails yields N per-resource results — N−1 synchronized, 1 unsynchronized
carrying the operation's typed error — and the batch call returns instead of
raising (its result is a total list).  The upload batch is the exception the
counterexample exhibits: one failing upload makes `_upload_many` raise the
`UploadingError` and no per-item results are produced. -/
theorem batch_isolates_failures
    (action : BatchAction) (items : List (ResourceState × HttpResponse))
    (h1 : (items.filter (fun it => !it.2.isOk)).length = 1) :
    (batch_request action items).length = items.length ∧
    ((batch_request action items).filter (fun r => r.synchronized)).length
        = items.length - 1 ∧
    ((batch_request action items).filter (fun r => !r.synchronized)).length = 1 ∧
    (∀ r ∈ batch_request action items, r.synchronized = false →
      ∃ st, r.error = some (batchErrorOf action st)) := by
  have hlen : (batch_request action items).length = items.length := by
    simp [batch_request]
  have hcounts := batch_request_counts action items
  have hsum := filter_length_add_filter_not_length (batch_request action items)
  have hunsync : ((batch_request action items).filter (fun r => !r.synchronized)).length = 1 := by
    rw [hcounts.2, h1]
  refine ⟨hlen, by omega, hunsync, ?_⟩
  intro r hr hrs
  rcases List.mem_map.mp hr with ⟨it, hit, hre⟩
  by_cases h : it.2.isOk = true
  · rw [← hre] at hrs
    simp [h] at hrs
  · refine ⟨it.2.status, ?_⟩
    rw [← hre]
    simp only [Bool.not_eq_true] at h
    simp [h]

/-- C1 witness: a three-item update batch whose middle call fails with 500 —
three results, two synchronized, one unsynchronized with `UpdatingError`. -/
theorem batch_isolates_failures_witness :
    (batch_request BatchAction.update
        [({ id := some "a", context := none, store_metadata := none },
            { status := 200, body := "m1" }),
          ({ id := some "b", context := none, store_metadata := none },
            { status := 500, body := "" }),
          ({ id := some "c", context := none, store_metadata := none },
            { status := 200, body := "m3" })]).length = 3 ∧
      ((batch_request BatchAction.update
        [({ id := some "a", context := none, store_metadata := none },
            { status := 200, body := "m1" }),
          ({ id := some "b", context := none, store_metadata := none },
            { status := 500, body := "" }),
          ({ id := some "c", context := none, store_metadata := none },
            { status := 200, body := "m3" })]).filter (fun r => r.synchronized)).length = 2 ∧
      ((batch_request BatchAction.update
        [({ id := some "a", context := none, store_metadata := none },
            { status := 200, body := "m1" }),
          ({ id := some "b", context := none, store_metadata := none },
            { status := 500, body := "" }),
          ({ id := some "c", context := none, store_metadata := none },
            { status := 200, body := "m3" })]).filter (fun r => !r.synchronized)).length = 1 ∧
      (∀ r ∈ batch_request BatchAction.update
        [({ id := some "a", context := none, store_metadata := none },
            { status := 200, body := "m1" }),
          ({ id := some "b", context := none, store_metadata := none },
            { status := 500, body := "" }),
          ({ id := some "c", context := none, store_metadata := none },
            { status := 200, body := "m3" })], r.synchronized = false →
        ∃ st, r.error = some (batchErrorOf BatchAction.update st)) :=
  batch_isolates_failures BatchAction.update
    [({ id := some "a", context := none, store_metadata := none },
        { status := 200, body := "m1" }),
      ({ id := some "b", context := none, store_metadata := none },
        { status := 500, body := "" }),
      ({ id := some "c", context := none, store_metadata := none },
        { status := 200, body := "m3" })]
    (by decide)

/-! ## `BlueBrainNexus.rewrite_uri` (bluebrain_nexus.py lines 995-1043) -/

/-- The character class `[\w . : % / -]` (written without spaces in the
source) of the schema-spotting regex of `rewrite_uri`; the pattern's trailing
class is the same character set. -/
def schemaRegexChar (c : Char) : Bool :=
  wordChar c || c = '.' || c = ':' || c = '%' || c = '/' || c = '-'

/-- After the literal `/`, the pattern needs `(\w+):(\w+)/` followed by at
least one class character.  The greedy `\w+` runs are taken maximal: a
shorter run would end at a word character where the literal `:` or `/` is
required, so backtracking inside them cannot succeed. -/
def parseAfterSlash (rest : List Char) : Option (List Char × List Char) :=
  let g1 := rest.takeWhile wordChar
  let r1 := rest.dropWhile wordChar
  if g1.isEmpty then none
  else
    match r1 with
    | ':' :: r2 =>
      let g2 := r2.takeWhile wordChar
      let r3 := r2.dropWhile wordChar
      if g2.isEmpty then none
      else
        match r3 with
        | '/' :: (c :: _) => if schemaRegexChar c then some (g1, g2) else none
        | _ => none
    | _ => none

/-- Backtracking over the greedy leading class-character run: `re.match` anchors the
pattern at the start, tries the longest class-character prefix first and
steps it back one character at a time; at prefix length `j` the literal `/`
must sit at index `j` and the remainder of the pattern must parse after it. -/
def reMatchDesc (l : List Char) : Nat → Option (List Char × List Char)
  | 0 => none
  | j + 1 =>
    match (if l.get? (j + 1) = some '/' then parseAfterSlash (l.drop (j + 2)) else none) with
    | some gs => some gs
    | none => reMatchDesc l j

/-- The `re.match` of line 1005 — a leading class-character run, a literal
slash, the two captured `\w+` groups around a colon, a slash and a trailing
class-character run — returning the two captured groups when the anchored
pattern matches. -/
def reMatchSchema (s : String) : Option (String × String) :=
  (reMatchDesc s.data (s.data.takeWhile schemaRegexChar).length).map
    fun gs => (String.mk gs.1, String.mk gs.2)

/-- `is_valid_url` (kgforge/core/commons/files.py lines 46-51): the parse has
both a scheme and a netloc. -/
def is_valid_url (url : String) : Bool :=
  (urlparse url).scheme ≠ "" && (urlparse url).netloc ≠ ""

/-- The two operations `rewrite_uri` calls on the JSON-LD `Context` (an
external collaborator, kgforge/core/commons/context.py): prefix expansion and
IRI resolution against the base/vocabulary. -/
structure PyContext where
  expand : String → String
  resolve_iri : String → String

/-- Modelled from the spec and the repository's test fixture
(`nexus_context`): the store project's context has base `http://data.net`,
vocab `http://vocab.net`, and the api mapping `datashapes` →
`https://neuroshapes.org/dash/`.  `expand` resolves a prefix through the
mappings (falling back to the vocabulary), `resolve_iri` joins a bare name
onto the base. -/
def nexusContext : PyContext :=
  { expand := fun s =>
      if s = "datashapes" then "https://neuroshapes.org/dash/"
      else "http://vocab.net/" ++ s,
    resolve_iri := fun s => "http://data.net/" ++ s }

/-- Lines 1025-1043 of `rewrite_uri`: the shared tail reached when the schema
regex did not match (with `url = raw_url`) or matched without the
`url_base` prefix (with the schema expanded inline in `url`). -/
def rewriteUriTail (context : PyContext) (uri : String) (is_file : Bool)
    (url_base url : String) : String :=
  if pyStartsWith url url_base then
    let schema_and_id := (pySplit url url_base).getD 1 ""
    let id_ :=
      if strContains schema_and_id "/_/" then (pySplit schema_and_id "/_/").getLastD ""
      else (pySplit schema_and_id "/").getLastD ""
    let resolved_id := if !is_valid_url id_ then context.resolve_iri id_ else id_
    if strContains schema_and_id resolved_id then uri
    else pyReplace url id_ (quote_plus resolved_id)
  else if !is_file && !strContains url "/_/" then
    url_base ++ "/_/" ++ quote_plus url
  else
    url_base ++ "/" ++ quote_plus url

/-- `BlueBrainNexus.rewrite_uri(uri, context, is_file, encoding)` with the
default `encoding=None` (so `quote_plus` runs with its defaults).  The first
branch handles a URL whose detected `prefix:name` schema segment is expanded
and re-quoted; otherwise control falls to the shared tail. -/
def rewrite_uri (endpoint bucket : String) (context : PyContext) (uri : String)
    (is_file : Bool) : String :=
  let raw_url := unquote uri
  let url_base :=
    if is_file then endpoint ++ "/files/" ++ bucket
    else endpoint ++ "/resources/" ++ bucket
  match reMatchSchema raw_url with
  | some (g0, g1) =>
    let old_schema := g0 ++ ":" ++ g1
    let resolved := context.expand g0
    if pyStartsWith raw_url url_base then
      let extended_schema := resolved ++ g1
      let url := pyReplace raw_url old_schema (quote_plus extended_schema)
      let schema_and_id := (pySplit url (url_base ++ "/")).getD 1 ""
      let id_ := (pySplit schema_and_id (quote_plus extended_schema ++ "/")).getLastD ""
      let resolved_id := if !is_valid_url id_ then context.resolve_iri id_ else id_
      pyReplace url id_ (quote_plus resolved_id)
    else
      let extended_schema := resolved ++ g1
      rewriteUriTail context uri is_file url_base (pyReplace raw_url old_schema extended_schema)
  | none => rewriteUriTail context uri is_file url_base raw_url

/-- The endpoint of the repository's test configuration. -/
def nexusEndpoint : String := "https://nexus-instance.org"

/-- The bucket of the repository's test configuration. -/
def nexusBucket : String := "test/kgforge"

/-- C3 counterexample: `rewrite_uri` is not idempotent.  For the bare file id
`myverycoolid123456789` (an input of the repository's own test suite) the
first application yields `E/files/B/myverycoolid123456789`, but applying
`rewrite_uri` to that output resolves the trailing id against the context
base and re-quotes it, producing a different string — exactly the
`simple-file-id` / `file-self` pair of test_rewrite_uri. -/
theorem rewrite_uri_counterexample :
    rewrite_uri nexusEndpoint nexusBucket nexusContext "myverycoolid123456789" true
        = "https://nexus-instance.org/files/test/kgforge/myverycoolid123456789" ∧
      rewrite_uri nexusEndpoint nexusBucket nexusContext
          (rewrite_uri nexusEndpoint nexusBucket nexusContext
            "myverycoolid123456789" true) true
        = "https://nexus-instance.org/files/test/kgforge/http%3A%2F%2Fdata.net%2Fmyverycoolid123456789" ∧
      rewrite_uri nexusEndpoint nexusBucket nexusContext
          (rewrite_uri nexusEndpoint nexusBucket nexusContext
            "myverycoolid123456789" true) true
        ≠ rewrite_uri nexusEndpoint nexusBucket nexusContext
            "myverycoolid123456789" true := by
  refine ⟨rfl, rfl, ?_⟩
  decide

/-- C3 amended: `rewrite_uri` is not idempotent in general (see the
counterexample: a bare id is first given the files/resources base and the
second pass additionally resolves it against the context base); an id already
in canonical expanded, URL-quoted form is detected (`resolved_id in
schema_and_id`) and returned unchanged, and on an id whose rewritten form
embeds the full resolved IRI — such as an absolute `http://data.net/...`
resource id — a second application does return the first output unchanged. -/
theorem rewrite_uri_expanded_unchanged :
    rewrite_uri nexusEndpoint nexusBucket nexusContext
        "https://nexus-instance.org/files/test/kgforge/http%3A%2F%2Fdata.net%2F632a7644-b07e-4fcd-a537-9162e3444106"
        true
      = "https://nexus-instance.org/files/test/kgforge/http%3A%2F%2Fdata.net%2F632a7644-b07e-4fcd-a537-9162e3444106" ∧
    rewrite_uri nexusEndpoint nexusBucket nexusContext
        "https://nexus-instance.org/resources/test/kgforge/_/http%3A%2F%2Fdata.net%2F43edd8bf-5dfe-45cd-b6d8-1a604dd6beca"
        false
      = "https://nexus-instance.org/resources/test/kgforge/_/http%3A%2F%2Fdata.net%2F43edd8bf-5dfe-45cd-b6d8-1a604dd6beca" ∧
    rewrite_uri nexusEndpoint nexusBucket nexusContext
        (rewrite_uri nexusEndpoint nexusBucket nexusContext
          "http://data.net/myverycoolid123456789" false) false
      = rewrite_uri nexusEndpoint nexusBucket nexusContext
          "http://data.net/myverycoolid123456789" false :=
  ⟨rfl, rfl, rfl⟩
